import Mathlib

/-!
Shallow embedding of `openvpn-monitor.py`: a one-shot health probe that
fingerprints (MD5) the stdout of an OpenVPN management-interface status query,
compares it with the previously persisted fingerprint, and either establishes a
baseline, records a healthy change, or captures diagnostics, restarts the
service and alerts operators.

External effects are made explicit: shell commands are oracles (`CmdOutcome`),
the state file is a `StateFile` value, the log is the list of appended texts,
and the SMTP session is an oracle (`SmtpTransport`).  Python exceptions are
`Except.error`.
-/

namespace OpenvpnMonitor

/-! ## Python string helpers -/

/-- Characters Python's `str.strip()` removes (ASCII whitespace range). -/
def pyIsSpace (c : Char) : Bool :=
  c == ' ' || c == '\t' || c == '\n' || c == '\r' || c == '\x0b' || c == '\x0c'

/-- `str.strip()` on the character list. -/
def pyStripList (l : List Char) : List Char :=
  ((l.dropWhile pyIsSpace).reverse.dropWhile pyIsSpace).reverse

/-- Python `s.strip()`. -/
def pyStrip (s : String) : String := String.mk (pyStripList s.data)

/-- Python `s.rstrip("\n")`. -/
def rstripNl (s : String) : String :=
  String.mk ((s.data.reverse.dropWhile (fun c => c == '\n')).reverse)

/-- Python `"\n".join(l)`. -/
def joinNl : List String → String
  | [] => ""
  | [x] => x
  | x :: xs => x ++ "\n" ++ joinNl xs

/-! ## UTF-8 encoding with Python's `errors` modes

`md5_hex` calls `data.encode("utf-8", errors="replace")`: a lone surrogate is
replaced by `?` (byte 63), never an error; `errors="strict"` (the default it
deliberately avoids) would raise `UnicodeEncodeError`, modelled as `none`. -/

/-- A UTF-16 surrogate code point, not encodable in UTF-8. -/
def isSurrogate (n : Nat) : Bool := 55296 ≤ n && n ≤ 57343

/-- Standard UTF-8 byte sequence of one code point. -/
def utf8EncodeCodepoint (n : Nat) : List Nat :=
  if n < 128 then [n]
  else if n < 2048 then [192 + n / 64, 128 + n % 64]
  else if n < 65536 then [224 + n / 4096, 128 + n / 64 % 64, 128 + n % 64]
  else [240 + n / 262144, 128 + n / 4096 % 64, 128 + n / 64 % 64, 128 + n % 64]

/-- `encode("utf-8", errors="replace")`: surrogates become `?` (63). -/
def encodeReplace (cs : List Nat) : List Nat :=
  (cs.map fun n => if isSurrogate n then [63] else utf8EncodeCodepoint n).flatten

inductive EncodeErrors where
  | strict
  | replace
deriving DecidableEq

/-- Python `str.encode("utf-8", errors=e)` over the string's code points:
`strict` raises (`none`) on a surrogate, `replace` never fails. -/
def pyEncodeUtf8 : EncodeErrors → List Nat → Option (List Nat)
  | .strict, cs => if cs.any isSurrogate then none else some (encodeReplace cs)
  | .replace, cs => some (encodeReplace cs)

/-! ## MD5 (RFC 1321), over byte lists, words as `Nat` mod 2^32 -/

def w32 (n : Nat) : Nat := n % 4294967296

def wadd (a b : Nat) : Nat := (a + b) % 4294967296

/-- Bitwise complement on a 32-bit word. -/
def wnot (a : Nat) : Nat := 4294967295 - a % 4294967296

/-- Left-rotation of a 32-bit word by `c` (for `0 < c < 32`). -/
def wrotl (x c : Nat) : Nat :=
  ((x % 4294967296) * 2 ^ c + (x % 4294967296) / 2 ^ (32 - c)) % 4294967296

def md5F (b c d : Nat) : Nat := (b &&& c) ||| (wnot b &&& d)
def md5G (b c d : Nat) : Nat := (d &&& b) ||| (wnot d &&& c)
def md5H (b c d : Nat) : Nat := b ^^^ c ^^^ d
def md5I (b c d : Nat) : Nat := w32 (c ^^^ (b ||| wnot d))

/-- Per-round sine-derived constants `K`. -/
def md5K : List Nat :=
  [0xd76aa478, 0xe8c7b756, 0x242070db, 0xc1bdceee,
   0xf57c0faf, 0x4787c62a, 0xa8304613, 0xfd469501,
   0x698098d8, 0x8b44f7af, 0xffff5bb1, 0x895cd7be,
   0x6b901122, 0xfd987193, 0xa679438e, 0x49b40821,
   0xf61e2562, 0xc040b340, 0x265e5a51, 0xe9b6c7aa,
   0xd62f105d, 0x02441453, 0xd8a1e681, 0xe7d3fbc8,
   0x21e1cde6, 0xc33707d6, 0xf4d50d87, 0x455a14ed,
   0xa9e3e905, 0xfcefa3f8, 0x676f02d9, 0x8d2a4c8a,
   0xfffa3942, 0x8771f681, 0x6d9d6122, 0xfde5380c,
   0xa4beea44, 0x4bdecfa9, 0xf6bb4b60, 0xbebfbc70,
   0x289b7ec6, 0xeaa127fa, 0xd4ef3085, 0x04881d05,
   0xd9d4d039, 0xe6db99e5, 0x1fa27cf8, 0xc4ac5665,
   0xf4292244, 0x432aff97, 0xab9423a7, 0xfc93a039,
   0x655b59c3, 0x8f0ccc92, 0xffeff47d, 0x85845dd1,
   0x6fa87e4f, 0xfe2ce6e0, 0xa3014314, 0x4e0811a1,
   0xf7537e82, 0xbd3af235, 0x2ad7d2bb, 0xeb86d391]

/-- Per-round left-rotation amounts `s`. -/
def md5S : List Nat :=
  [7, 12, 17, 22, 7, 12, 17, 22, 7, 12, 17, 22, 7, 12, 17, 22,
   5, 9, 14, 20, 5, 9, 14, 20, 5, 9, 14, 20, 5, 9, 14, 20,
   4, 11, 16, 23, 4, 11, 16, 23, 4, 11, 16, 23, 4, 11, 16, 23,
   6, 10, 15, 21, 6, 10, 15, 21, 6, 10, 15, 21, 6, 10, 15, 21]

structure MD5State where
  a : Nat
  b : Nat
  c : Nat
  d : Nat
deriving DecidableEq

def md5Init : MD5State := ⟨0x67452301, 0xefcdab89, 0x98badcfe, 0x10325476⟩

/-- One of the 64 rounds on one chunk; `M j` is the chunk's `j`-th word. -/
def md5Round (M : Nat → Nat) (st : MD5State) (i : Nat) : MD5State :=
  let f :=
    if i < 16 then md5F st.b st.c st.d
    else if i < 32 then md5G st.b st.c st.d
    else if i < 48 then md5H st.b st.c st.d
    else md5I st.b st.c st.d
  let g :=
    if i < 16 then i
    else if i < 32 then (5 * i + 1) % 16
    else if i < 48 then (3 * i + 5) % 16
    else (7 * i) % 16
  let tmp := wadd (wadd (wadd st.a f) (md5K.getD i 0)) (M g)
  { a := st.d, b := wadd st.b (wrotl tmp (md5S.getD i 0)), c := st.b, d := st.c }

/-- `j`-th little-endian 32-bit word of a 64-byte chunk. -/
def wordAt (chunk : List Nat) (j : Nat) : Nat :=
  chunk.getD (4 * j) 0 + 256 * chunk.getD (4 * j + 1) 0
    + 65536 * chunk.getD (4 * j + 2) 0 + 16777216 * chunk.getD (4 * j + 3) 0

def md5ProcessChunk (st : MD5State) (chunk : List Nat) : MD5State :=
  let r := (List.range 64).foldl (md5Round (wordAt chunk)) st
  { a := wadd st.a r.a, b := wadd st.b r.b, c := wadd st.c r.c, d := wadd st.d r.d }

/-- Split into 64-byte chunks (structural recursion on a fuel bounded by the
length, so the kernel can evaluate it). -/
def chunks64Go : Nat → List Nat → List (List Nat)
  | _, [] => []
  | 0, _ => []
  | fuel + 1, x :: xs => ((x :: xs).take 64) :: chunks64Go fuel ((x :: xs).drop 64)

/-- Split into 64-byte chunks. -/
def chunks64 (l : List Nat) : List (List Nat) := chunks64Go l.length l

/-- Eight little-endian bytes of the 64-bit message-bit length. -/
def lenBytes8 (n : Nat) : List Nat :=
  [n % 256, n / 256 % 256, n / 65536 % 256, n / 16777216 % 256,
   n / 4294967296 % 256, n / 1099511627776 % 256,
   n / 281474976710656 % 256, n / 72057594037927936 % 256]

/-- MD5 padding: `0x80`, zeros to 56 mod 64, then the bit length. -/
def md5Pad (msg : List Nat) : List Nat :=
  let padLen := (120 - (msg.length + 1) % 64) % 64
  msg ++ 128 :: (List.replicate padLen 0 ++ lenBytes8 (8 * msg.length % 18446744073709551616))

/-- Four little-endian bytes of a 32-bit word. -/
def wordBytesLE (w : Nat) : List Nat := [w % 256, w / 256 % 256, w / 65536 % 256, w / 16777216 % 256]

/-- The 16-byte MD5 digest of a byte list. -/
def md5Bytes (msg : List Nat) : List Nat :=
  let fin := (chunks64 (md5Pad msg)).foldl md5ProcessChunk md5Init
  wordBytesLE fin.a ++ wordBytesLE fin.b ++ wordBytesLE fin.c ++ wordBytesLE fin.d

/-- Two lowercase hex characters of one byte. -/
def byteHexChars (b : Nat) : List Char := [Nat.digitChar (b / 16 % 16), Nat.digitChar (b % 16)]

/-- Lowercase hex rendering of a byte list (`hexdigest`). -/
def bytesToHex (bs : List Nat) : String := String.mk (bs.map byteHexChars).flatten

/-- `md5_hex` over a Python string given as its code points (a Python `str` may
hold lone surrogates, which `errors="replace"` turns into `?`). -/
def md5HexCp (cs : List Nat) : String := bytesToHex (md5Bytes (encodeReplace cs))

/-- `md5_hex(data)` from the source: `hashlib.md5(data.encode("utf-8",
errors="replace")).hexdigest()`. -/
def md5_hex (data : String) : String := md5HexCp (data.data.map Char.toNat)

/-! ## External commands -/

/-- `CommandResult` from the source: returncode, stdout, stderr. -/
structure CommandResult where
  returncode : Int
  stdout : String
  stderr : String
deriving DecidableEq

/-- What one external shell command does when invoked: it either completes
within the timeout with a result, or exceeds its timeout budget. -/
inductive CmdOutcome where
  | completes (result : CommandResult)
  | timesOut
deriving DecidableEq

/-- `runCmd` from the source: `subprocess.run(cmd, shell=True, text=True,
capture_output=True, timeout=timeout)` with NO try/except, so exceeding the
timeout raises `subprocess.TimeoutExpired` (modelled as `Except.error`) rather
than producing a `CommandResult`. -/
def runCmd : CmdOutcome → Except String CommandResult
  | .completes r => .ok r
  | .timesOut => .error "subprocess.TimeoutExpired"

/-! ## Fingerprint store (state file) -/

/-- The state file at `STATE_PATH`: missing, present but unreadable (read_text
raises), or present with text content. -/
inductive StateFile where
  | absent
  | unreadable
  | content (text : String)
deriving DecidableEq

/-- `read_last_md5` from the source: `None` when the file does not exist or the
read raises, otherwise the file text stripped of surrounding whitespace. -/
def read_last_md5 : StateFile → Option String
  | .absent => none
  | .unreadable => none
  | .content text => some (pyStrip text)

/-- `write_last_md5` from the source: writes `value + "\n"` to a sibling temp
file, then atomically replaces the state file with it. -/
def write_last_md5 (value : String) (_old : StateFile) : StateFile :=
  .content (value ++ "\n")

/-! ## Log lines -/

/-- The one-line success record `log_success` appends. -/
def log_success_line (ts md5 : String) : String :=
  ts ++ " SUCCESS probe md5_changed md5=" ++ md5

/-! ## Email alert -/

/-- An exception raised by the SMTP session, with the classes
`send_email_alert` distinguishes and the text Python would interpolate. -/
inductive SmtpExc where
  | notSupported (msg : String)
  | authError (msg : String)
  | other (name msg : String)
deriving DecidableEq

/-- `type(e).__name__: e` as the outer `except` block formats it. -/
def excText : SmtpExc → String
  | .notSupported msg => "SMTPNotSupportedError: " ++ msg
  | .authError msg => "SMTPAuthenticationError: " ++ msg
  | .other n msg => n ++ ": " ++ msg

/-- Behavior of the SMTP transport at each stage of the session: `none` means
the stage succeeds, `some e` that it raises `e`. -/
structure SmtpTransport where
  connectExc : Option SmtpExc
  starttlsExc : Option SmtpExc
  loginExc : Option SmtpExc
  sendExc : Option SmtpExc
  quitExc : Option SmtpExc
deriving DecidableEq

/-- The email-related module configuration read from the environment. -/
structure EmailCfg where
  enabled : Bool
  smtp_security : String
  smtp_username : String
  smtp_password : String
  email_from : String
  email_to : List String
deriving DecidableEq

/-- The exception (if any) raised while establishing the SMTP session, per the
source's security-mode branch: `tls` connects directly, `starttls` connects
then upgrades, anything else is a plain connection. -/
def smtpConnectExc (cfg : EmailCfg) (t : SmtpTransport) : Option SmtpExc :=
  if cfg.smtp_security = "tls" then t.connectExc
  else if cfg.smtp_security = "starttls" then
    match t.connectExc with
    | some e => some e
    | none => t.starttlsExc
  else t.connectExc

/-- The line logged when no recipient is configured. -/
def logSkippedLine : String := "Email alert skipped: No recipients configured"

/-- The line the outer `except` block logs before returning `False`. -/
def logFailedLine (e : SmtpExc) : String := "Failed to send email alert: " ++ excText e

/-- The warning logged when the server rejects AUTH as unsupported. -/
def logAuthWarnNoAuth : String :=
  "Warning: SMTP server does not support authentication, sending without login"

/-- The warning logged when authentication fails. -/
def logAuthWarnFailed (msg : String) : String :=
  "Warning: SMTP authentication failed: " ++ msg ++ ", attempting to send anyway"

/-- The success line logged after `sendmail`/`quit`. -/
def logSentLine (recipients : List String) : String :=
  "Email alert sent successfully to: " ++ String.intercalate ", " recipients

/-- Log lines produced by the login step (only attempted when both credentials
are non-empty): the two caught exception classes each log a warning. -/
def authLogs (tryLogin : Bool) (loginExc : Option SmtpExc) : List String :=
  if tryLogin then
    match loginExc with
    | some (.notSupported _) => [logAuthWarnNoAuth]
    | some (.authError msg) => [logAuthWarnFailed msg]
    | _ => []
  else []

/-- The login exception, if any, that the login step does NOT catch (anything
other than `SMTPNotSupportedError`/`SMTPAuthenticationError` propagates to the
outer `except`). -/
def authFatal (tryLogin : Bool) (loginExc : Option SmtpExc) : Option SmtpExc :=
  if tryLogin then
    match loginExc with
    | some (.other n msg) => some (.other n msg)
    | _ => none
  else none

/-- `send_email_alert` from the source, returning `(result, log lines appended)`.
Guards: disabled, or no non-blank recipient.  Inside the try: connect (per
security mode); login only when both credentials are non-empty, where
`SMTPNotSupportedError` and `SMTPAuthenticationError` are caught with a
warning log and the send still proceeds, while any other login exception — and
any connect/send/quit exception — reaches the outer `except`, which logs
a failure line and returns `False`. -/
def send_email_alert (cfg : EmailCfg) (t : SmtpTransport) (_subject _body : String)
    (recipients : List String) : Bool × List String :=
  if cfg.enabled = false then (false, [])
  else if recipients.isEmpty || !(recipients.any fun r => pyStrip r != "") then
    (false, [logSkippedLine])
  else
    let recipients := (recipients.filter fun r => pyStrip r != "").map pyStrip
    match smtpConnectExc cfg t with
    | some e => (false, [logFailedLine e])
    | none =>
      let tryLogin : Bool := cfg.smtp_username != "" && cfg.smtp_password != ""
      match authFatal tryLogin t.loginExc with
      | some e => (false, authLogs tryLogin t.loginExc ++ [logFailedLine e])
      | none =>
        match t.sendExc with
        | some e => (false, authLogs tryLogin t.loginExc ++ [logFailedLine e])
        | none =>
          match t.quitExc with
          | some e => (false, authLogs tryLogin t.loginExc ++ [logFailedLine e])
          | none =>
            (true, authLogs tryLogin t.loginExc ++ [logSentLine recipients])

/-! ## The decision engine (`main`) -/

/-- One invocation's environment: configuration values, the state file, what
each external command would do, and the SMTP transport's behavior.  `ts` is
the wall-clock timestamp string. -/
structure Env where
  nc_host : String
  nc_port : Nat
  service : String
  hostname : String
  ts : String
  state : StateFile
  status_out : CmdOutcome
  svc_out : CmdOutcome
  load_out : CmdOutcome
  restart_out : CmdOutcome
  emailCfg : EmailCfg
  smtp : SmtpTransport
deriving DecidableEq

def status_cmd (env : Env) : String :=
  "echo status | nc " ++ env.nc_host ++ " " ++ toString env.nc_port

def svc_status_cmd (env : Env) : String :=
  "systemctl status " ++ env.service ++ " --no-pager -l"

def load_stats_cmd (env : Env) : String :=
  "echo load-stats | nc " ++ env.nc_host ++ " " ++ toString env.nc_port

def restart_cmd (env : Env) : String := "systemctl restart " ++ env.service

def SEPARATOR_WIDTH : Nat := 80

/-- The fixed-width separator line of a diagnostic block. -/
def sepLine : String := String.mk (List.replicate SEPARATOR_WIDTH '=')

/-- `add_command_output` from the source: the lines one command contributes to
the diagnostic block; STDERR only when non-blank, STDOUT always. -/
def add_command_output (cmd : String) (result : CommandResult) : List String :=
  ["Command: " ++ cmd, "Return code: " ++ toString result.returncode]
    ++ (if pyStrip result.stderr ≠ "" then ["STDERR:", rstripNl result.stderr] else [])
    ++ ["STDOUT:", rstripNl result.stdout, ""]

/-- The diagnostic block `main` appends on the unchanged-MD5 path, exactly as
the source assembles `block` and joins it with newlines. -/
def diagnostic_block (env : Env)
    (status_result svc_result load_result restart_result : CommandResult)
    (current_md5 : String) : String :=
  joinNl
    ([sepLine,
      "Timestamp: " ++ env.ts,
      "Condition: status MD5 unchanged (md5=" ++ current_md5 ++ ")",
      ""]
     ++ add_command_output (svc_status_cmd env) svc_result
     ++ add_command_output (load_stats_cmd env) load_result
     ++ add_command_output (status_cmd env) status_result
     ++ ["Action: systemctl restart " ++ env.service,
         "Restart return code: " ++ toString restart_result.returncode]
     ++ (if pyStrip restart_result.stderr ≠ "" then
          ["Restart STDERR:", rstripNl restart_result.stderr] else [])
     ++ (if pyStrip restart_result.stdout ≠ "" then
          ["Restart STDOUT:", rstripNl restart_result.stdout] else [])
     ++ [sepLine, ""])

def email_subject (env : Env) : String :=
  "[ALERT] OpenVPN Service Failure on " ++ env.hostname

/-- The alert body f-string from the source. -/
def email_body (env : Env) (restart_result : CommandResult) (diag : String) : String :=
  "OpenVPN Monitor has detected a service failure and initiated a restart.\n\n"
    ++ "Hostname: " ++ env.hostname ++ "\n"
    ++ "Service: " ++ env.service ++ "\n"
    ++ "Timestamp: " ++ env.ts ++ "\n"
    ++ "Condition: Status MD5 unchanged (service appears frozen)\n\n"
    ++ "Restart Action: systemctl restart " ++ env.service ++ "\n"
    ++ "Restart Result: Exit code " ++ toString restart_result.returncode ++ "\n\n"
    ++ "Full Diagnostic Details:\n" ++ diag ++ "\n\n"
    ++ "This is an automated alert from the OpenVPN monitoring system.\n"

/-- Which terminal branch a run took. -/
inductive Branch where
  | bootstrap
  | changed
  | stuck
deriving DecidableEq

/-- Observable outcome of one run of `main`: exit code, the texts appended to
the log (in order), the final state file, the shell commands issued via
`runCmd` (in order), the branch taken, and the alert dispatch result
(`none` when `send_email_alert` was never called). -/
structure RunResult where
  exitCode : Int
  logs : List String
  state : StateFile
  commands : List String
  branch : Branch
  emailResult : Option Bool
deriving DecidableEq

/-- `main` from the source.  An uncaught Python exception (a command timeout)
is `Except.error`. -/
def mainRun (env : Env) : Except String RunResult :=
  match runCmd env.status_out with
  | .error e => .error e
  | .ok status_result =>
    let current_md5 := md5_hex status_result.stdout
    match read_last_md5 env.state with
    | none =>
      .ok { exitCode := 0, logs := [], state := write_last_md5 current_md5 env.state,
            commands := [status_cmd env], branch := .bootstrap, emailResult := none }
    | some last_md5 =>
      if current_md5 ≠ last_md5 then
        .ok { exitCode := 0,
              logs := [log_success_line env.ts current_md5],
              state := write_last_md5 current_md5 env.state,
              commands := [status_cmd env], branch := .changed, emailResult := none }
      else
        match runCmd env.svc_out with
        | .error e => .error e
        | .ok svc_result =>
          match runCmd env.load_out with
          | .error e => .error e
          | .ok load_result =>
            match runCmd env.restart_out with
            | .error e => .error e
            | .ok restart_result =>
              let diag := diagnostic_block env status_result svc_result load_result
                restart_result current_md5
              let sent := send_email_alert env.emailCfg env.smtp (email_subject env)
                (email_body env restart_result diag) env.emailCfg.email_to
              .ok { exitCode := restart_result.returncode,
                    logs := diag :: sent.2,
                    state := write_last_md5 current_md5 env.state,
                    commands := [status_cmd env, svc_status_cmd env, load_stats_cmd env,
                                 restart_cmd env],
                    branch := .stuck, emailResult := some sent.1 }

/-- Does a log entry look like a diagnostic block (it opens with the `=`
separator, which no other appended text does)? -/
def isDiagLog (l : String) : Bool := l.data.headD ' ' == '='

/-- The branch `mainRun` selects, as a function of the current fingerprint and
the parts of the environment other than the status query's result. -/
def branchView (env : Env) (cur : String) : Except String Branch :=
  match read_last_md5 env.state with
  | none => .ok .bootstrap
  | some last =>
    if cur ≠ last then .ok .changed
    else
      match runCmd env.svc_out with
      | .error e => .error e
      | .ok _ =>
        match runCmd env.load_out with
        | .error e => .error e
        | .ok _ =>
          match runCmd env.restart_out with
          | .error e => .error e
          | .ok _ => .ok .stuck

/-! ## Sample inputs (used by the closed witness theorems) -/

/-- A command that completes silently with return code 0. -/
def res0 : CommandResult := ⟨0, "", ""⟩

/-- Email disabled, no recipients (the source's defaults). -/
def cfg0 : EmailCfg := ⟨false, "none", "", "", "openvpn-monitor@localhost", []⟩

/-- An SMTP transport where every stage succeeds. -/
def smtp0 : SmtpTransport := ⟨none, none, none, none, none⟩

/-- Email enabled with credentials and one recipient. -/
def cfgAuth : EmailCfg :=
  ⟨true, "none", "user", "pass", "openvpn-monitor@localhost", ["admin@example.com"]⟩

/-- An SMTP transport whose login raises `SMTPAuthenticationError` but whose
send and quit succeed. -/
def smtpAuthFail : SmtpTransport :=
  ⟨none, none, some (.authError "535 bad credentials"), none, none⟩

/-- An SMTP transport that raises on connect. -/
def smtpConnFail : SmtpTransport :=
  ⟨some (.other "ConnectionRefusedError" "refused"), none, none, none, none⟩

/-- An SMTP transport that raises on sendmail. -/
def smtpSendFail : SmtpTransport :=
  ⟨none, none, none, some (.other "SMTPException" "send failed"), none⟩

/-- A run environment matching the source's defaults: no prior state, every
command completes silently. -/
def env0 : Env :=
  ⟨"127.0.0.1", 7505, "openvpn-server@myconfig", "vpnhost",
   "2026-01-01T00:00:00+00:00", .absent, .completes res0, .completes res0,
   .completes res0, .completes res0, cfg0, smtp0⟩

/-- MD5 of the empty string. -/
def md5Empty : String := "d41d8cd98f00b204e9800998ecf8427e"

/-- `env0` with a persisted baseline equal to the current output's fingerprint
(the stuck case). -/
def envC1 : Env := { env0 with state := .content md5Empty }

/-! ## Helper lemmas -/

theorem dropWhile_eq_self_of_not {p : Char → Bool} :
    ∀ l : List Char, (∀ c ∈ l, p c = false) → l.dropWhile p = l := by
  intro l h
  induction l with
  | nil => rfl
  | cons a t _ih =>
    have ha : p a = false := h a (List.mem_cons_self a t)
    simp [List.dropWhile, ha]

theorem dropWhile_eq_nil_of_all {p : Char → Bool} :
    ∀ l : List Char, (∀ c ∈ l, p c = true) → l.dropWhile p = [] := by
  intro l h
  induction l with
  | nil => rfl
  | cons a t ih =>
    have ha : p a = true := h a (List.mem_cons_self a t)
    have := ih (fun c hc => h c (List.mem_cons_of_mem a hc))
    simp [List.dropWhile, ha, this]

theorem pyStripList_append_newline (l : List Char)
    (h : ∀ c ∈ l, pyIsSpace c = false) : pyStripList (l ++ ['\n']) = l := by
  cases l with
  | nil => decide
  | cons a t =>
    have ha : pyIsSpace a = false := h a (List.mem_cons_self a t)
    have ht : ∀ c ∈ t, pyIsSpace c = false := fun c hc => h c (List.mem_cons_of_mem a hc)
    have hall : ∀ c ∈ t.reverse ++ [a], pyIsSpace c = false := by
      intro c hc
      rcases List.mem_append.mp hc with hc1 | hc2
      · exact ht c (List.mem_reverse.mp hc1)
      · rw [List.mem_singleton.mp hc2]
        exact ha
    have h1 : ((a :: t) ++ ['\n']).dropWhile pyIsSpace = a :: (t ++ ['\n']) := by
      rw [List.cons_append, List.dropWhile_cons]
      simp [ha]
    have h2 : (a :: (t ++ ['\n'])).reverse = '\n' :: (t.reverse ++ [a]) := by
      simp
    have h3 : ('\n' :: (t.reverse ++ [a])).dropWhile pyIsSpace = t.reverse ++ [a] := by
      rw [List.dropWhile_cons]
      simp only [show pyIsSpace '\x0a' = true from rfl, if_true]
      exact dropWhile_eq_self_of_not _ hall
    unfold pyStripList
    rw [h1, h2, h3]
    simp

theorem pyStrip_all_space (s : String)
    (h : ∀ c ∈ s.data, pyIsSpace c = true) : pyStrip s = "" := by
  unfold pyStrip pyStripList
  rw [dropWhile_eq_nil_of_all s.data h]
  rfl

theorem bytesToHex_length (bs : List Nat) : (bytesToHex bs).length = 2 * bs.length := by
  unfold bytesToHex
  show ((bs.map byteHexChars).flatten).length = 2 * bs.length
  induction bs with
  | nil => rfl
  | cons b t ih =>
    rw [List.map_cons, List.flatten_cons, List.length_append, ih]
    show 2 + 2 * t.length = 2 * (t.length + 1)
    ring

theorem md5Bytes_length (msg : List Nat) : (md5Bytes msg).length = 16 := by
  unfold md5Bytes
  simp [wordBytesLE]

theorem md5HexCp_length (cs : List Nat) : (md5HexCp cs).length = 32 := by
  unfold md5HexCp
  rw [bytesToHex_length, md5Bytes_length]

theorem md5_hex_length (s : String) : (md5_hex s).length = 32 := md5HexCp_length _

theorem md5_hex_ne_empty (s : String) : md5_hex s ≠ "" := by
  intro h
  have := md5_hex_length s
  rw [h] at this
  exact absurd this (by decide)

theorem digitChar_mem_hex : ∀ m, m < 16 → Nat.digitChar m ∈ ("0123456789abcdef").data := by
  decide

theorem bytesToHex_chars (bs : List Nat) :
    ∀ c ∈ (bytesToHex bs).data, c ∈ ("0123456789abcdef").data := by
  unfold bytesToHex
  show ∀ c ∈ (bs.map byteHexChars).flatten, _
  induction bs with
  | nil => intro c hc; cases hc
  | cons b t ih =>
    intro c hc
    rw [List.map_cons, List.flatten_cons, List.mem_append] at hc
    rcases hc with hc | hc
    · unfold byteHexChars at hc
      rcases hc with _ | ⟨_, hc⟩
      · exact digitChar_mem_hex _ (Nat.mod_lt _ (by norm_num))
      · rcases hc with _ | ⟨_, hc⟩
        · exact digitChar_mem_hex _ (Nat.mod_lt _ (by norm_num))
        · cases hc
    · exact ih c hc

theorem isDiagLog_logSkipped : isDiagLog logSkippedLine = false := rfl

theorem isDiagLog_logFailed (e : SmtpExc) : isDiagLog (logFailedLine e) = false := rfl

theorem isDiagLog_logAuthWarnNoAuth : isDiagLog logAuthWarnNoAuth = false := rfl

theorem isDiagLog_logAuthWarnFailed (msg : String) :
    isDiagLog (logAuthWarnFailed msg) = false := rfl

theorem isDiagLog_logSent (r : List String) : isDiagLog (logSentLine r) = false := rfl

theorem authLogs_not_diag (b : Bool) (e : Option SmtpExc) :
    ∀ l ∈ authLogs b e, isDiagLog l = false := by
  intro l hl
  unfold authLogs at hl
  cases b with
  | false => simp at hl
  | true =>
    rcases e with _ | e
    · simp at hl
    · rcases e with msg | msg | ⟨n, msg⟩ <;> simp at hl <;> (try rw [hl]) <;> rfl

theorem emailLogs_not_diag (cfg : EmailCfg) (t : SmtpTransport) (subject body : String)
    (recipients : List String) :
    ∀ l ∈ (send_email_alert cfg t subject body recipients).2, isDiagLog l = false := by
  intro l hl
  simp only [send_email_alert] at hl
  repeat' split at hl
  all_goals
    simp only [List.mem_append, List.mem_singleton, List.mem_cons, List.not_mem_nil,
      or_false, false_or] at hl
  all_goals
    first
    | (rcases hl with hl | rfl
       · exact authLogs_not_diag _ _ l hl
       · rfl)
    | (rw [hl]; rfl)

theorem isDiagLog_diag_block (env : Env) (sr vr lr rr : CommandResult) (m : String) :
    isDiagLog (diagnostic_block env sr vr lr rr m) = true := rfl

theorem emailLogs_filter_diag (cfg : EmailCfg) (t : SmtpTransport) (subject body : String)
    (recipients : List String) :
    (send_email_alert cfg t subject body recipients).2.filter isDiagLog = [] := by
  rw [List.filter_eq_nil_iff]
  intro a ha
  simp [emailLogs_not_diag cfg t subject body recipients a ha]

theorem emailLogs_countP_diag (cfg : EmailCfg) (t : SmtpTransport) (subject body : String)
    (recipients : List String) :
    (send_email_alert cfg t subject body recipients).2.countP isDiagLog = 0 := by
  rw [List.countP_eq_zero]
  intro a ha
  simp [emailLogs_not_diag cfg t subject body recipients a ha]

/-- The healthy-change path of `mainRun`, shared by several claims. -/
theorem mainRun_changed (env : Env) (r : CommandResult) (last : String)
    (hs : env.status_out = .completes r)
    (hread : read_last_md5 env.state = some last)
    (hne : md5_hex r.stdout ≠ last) :
    mainRun env = .ok
      { exitCode := 0,
        logs := [log_success_line env.ts (md5_hex r.stdout)],
        state := StateFile.content (md5_hex r.stdout ++ "\n"),
        commands := [status_cmd env],
        branch := .changed, emailResult := none } := by
  simp only [mainRun, hs, runCmd, hread, write_last_md5]
  rw [if_pos hne]

/-- The stuck path of `mainRun`, shared by several claims. -/
theorem mainRun_stuck (env : Env) (r vs ls rs : CommandResult) (last : String)
    (hs : env.status_out = .completes r)
    (hv : env.svc_out = .completes vs)
    (hl : env.load_out = .completes ls)
    (hr : env.restart_out = .completes rs)
    (hread : read_last_md5 env.state = some last)
    (heq : md5_hex r.stdout = last) :
    mainRun env = .ok
      { exitCode := rs.returncode,
        logs := diagnostic_block env r vs ls rs (md5_hex r.stdout)
          :: (send_email_alert env.emailCfg env.smtp (email_subject env)
               (email_body env rs (diagnostic_block env r vs ls rs (md5_hex r.stdout)))
               env.emailCfg.email_to).2,
        state := StateFile.content (md5_hex r.stdout ++ "\n"),
        commands := [status_cmd env, svc_status_cmd env, load_stats_cmd env,
                     restart_cmd env],
        branch := .stuck,
        emailResult := some (send_email_alert env.emailCfg env.smtp (email_subject env)
          (email_body env rs (diagnostic_block env r vs ls rs (md5_hex r.stdout)))
          env.emailCfg.email_to).1 } := by
  simp only [mainRun, hs, hv, hl, hr, runCmd, hread, write_last_md5]
  rw [if_neg (by simp [heq])]

theorem mainRun_map_branch (env : Env) (r : CommandResult)
    (hs : env.status_out = .completes r) :
    (mainRun env).map (fun res => res.branch) = branchView env (md5_hex r.stdout) := by
  unfold mainRun branchView
  rw [hs]
  cases read_last_md5 env.state with
  | none => rfl
  | some last =>
    by_cases h : md5_hex r.stdout ≠ last
    · simp only [runCmd, if_pos h]
      rfl
    · simp only [runCmd, if_neg h]
      cases env.svc_out <;> cases env.load_out <;> cases env.restart_out <;> rfl

/-- The SMTP transport's behavior cannot change the exit code, the diagnostic
blocks in the log, or the final state file of a run. -/
theorem mainRun_smtp_invariant (env : Env) (t1 t2 : SmtpTransport) :
    (mainRun { env with smtp := t1 }).map (fun res => res.exitCode)
      = (mainRun { env with smtp := t2 }).map (fun res => res.exitCode)
    ∧ (mainRun { env with smtp := t1 }).map (fun res => res.logs.filter isDiagLog)
      = (mainRun { env with smtp := t2 }).map (fun res => res.logs.filter isDiagLog)
    ∧ (mainRun { env with smtp := t1 }).map (fun res => res.state)
      = (mainRun { env with smtp := t2 }).map (fun res => res.state) := by
  rcases env with ⟨nh, np, sv, hn, ts', st, so, vo, lo, ro, ec, sm⟩
  unfold mainRun
  cases so with
  | timesOut => exact ⟨rfl, rfl, rfl⟩
  | completes r =>
    show _ ∧ _ ∧ _
    simp only [runCmd]
    cases read_last_md5 st with
    | none => exact ⟨rfl, rfl, rfl⟩
    | some last =>
      by_cases h : md5_hex r.stdout ≠ last
      · simp only [if_pos h]
        exact ⟨rfl, rfl, rfl⟩
      · simp only [if_neg h]
        cases vo with
        | timesOut => exact ⟨rfl, rfl, rfl⟩
        | completes vres =>
          cases lo with
          | timesOut => exact ⟨rfl, rfl, rfl⟩
          | completes lres =>
            cases ro with
            | timesOut => exact ⟨rfl, rfl, rfl⟩
            | completes rres =>
              refine ⟨rfl, ?_, rfl⟩
              simp only [Except.map, List.filter_cons, isDiagLog_diag_block,
                emailLogs_filter_diag, if_true]
              rfl

theorem smtpConnectExc_of_connect (cfg : EmailCfg) (t : SmtpTransport) (e : SmtpExc)
    (hc : t.connectExc = some e) : smtpConnectExc cfg t = some e := by
  unfold smtpConnectExc
  rw [hc]
  split
  · rfl
  · split <;> rfl

theorem smtpConnectExc_ok (cfg : EmailCfg) (t : SmtpTransport)
    (h1 : t.connectExc = none) (h2 : t.starttlsExc = none) :
    smtpConnectExc cfg t = none := by
  unfold smtpConnectExc
  rw [h1, h2]
  split
  · rfl
  · split <;> rfl

theorem send_false_of_connect (cfg : EmailCfg) (t : SmtpTransport)
    (subject body : String) (recipients : List String) (e : SmtpExc)
    (hc : t.connectExc = some e) :
    (send_email_alert cfg t subject body recipients).1 = false := by
  simp only [send_email_alert, smtpConnectExc_of_connect cfg t e hc]
  split
  · rfl
  · split <;> rfl

theorem send_false_of_send (cfg : EmailCfg) (t : SmtpTransport)
    (subject body : String) (recipients : List String) (e : SmtpExc)
    (h1 : t.connectExc = none) (h2 : t.starttlsExc = none) (h3 : t.loginExc = none)
    (h4 : t.sendExc = some e) :
    (send_email_alert cfg t subject body recipients).1 = false := by
  have haf : ∀ b : Bool, authFatal b none = none := by
    intro b
    cases b <;> rfl
  simp only [send_email_alert, smtpConnectExc_ok cfg t h1 h2, h3, h4, haf]
  split
  · rfl
  · split <;> rfl

/-! ## Claim theorems -/

set_option maxRecDepth 1000000

/-- C4: with no prior fingerprint persisted (state file missing or unreadable,
so `read_last_md5` yields `none`), one run of `main` persists the fingerprint
of the current output, appends nothing to the log, issues no extra command,
and exits 0 — the bootstrap run never triggers remediation. -/
theorem bootstrap_run (env : Env) (r : CommandResult)
    (hs : env.status_out = .completes r)
    (hread : read_last_md5 env.state = none) :
    mainRun env = .ok
      { exitCode := 0, logs := [],
        state := StateFile.content (md5_hex r.stdout ++ "\n"),
        commands := [status_cmd env], branch := .bootstrap, emailResult := none } := by
  simp only [mainRun, hs, runCmd, hread, write_last_md5]

/-- C4 witness: the bootstrap branch at a concrete input — no state file, empty
status output. -/
theorem bootstrap_run_witness :
    mainRun env0 = .ok
      { exitCode := 0, logs := [],
        state := StateFile.content (md5_hex "" ++ "\n"),
        commands := [status_cmd env0], branch := .bootstrap, emailResult := none } :=
  bootstrap_run env0 res0 rfl rfl

/-- C5: with a prior fingerprint `last` persisted and a status output whose
fingerprint differs, one run of `main` exits 0, appends exactly one success
log line (which contains the new fingerprint as a suffix), persists the new
fingerprint, issues no further command and dispatches no alert. -/
theorem healthy_change_run (env : Env) (r : CommandResult) (last : String)
    (hs : env.status_out = .completes r)
    (hread : read_last_md5 env.state = some last)
    (hne : md5_hex r.stdout ≠ last) :
    mainRun env = .ok
      { exitCode := 0,
        logs := [log_success_line env.ts (md5_hex r.stdout)],
        state := StateFile.content (md5_hex r.stdout ++ "\n"),
        commands := [status_cmd env], branch := .changed, emailResult := none }
    ∧ log_success_line env.ts (md5_hex r.stdout)
        = (env.ts ++ " SUCCESS probe md5_changed md5=") ++ md5_hex r.stdout :=
  ⟨mainRun_changed env r last hs hread hne, rfl⟩

/-- C5 witness: the healthy-change branch at a concrete environment whose state
file holds `"x"`, which differs from the MD5 of the empty output. -/
theorem healthy_change_run_witness :
    mainRun { env0 with state := .content "x" } = .ok
      { exitCode := 0,
        logs := [log_success_line env0.ts (md5_hex "")],
        state := StateFile.content (md5_hex "" ++ "\n"),
        commands := [status_cmd { env0 with state := .content "x" }],
        branch := .changed, emailResult := none }
    ∧ log_success_line env0.ts (md5_hex "")
        = (env0.ts ++ " SUCCESS probe md5_changed md5=") ++ md5_hex "" :=
  healthy_change_run { env0 with state := .content "x" } res0 "x" rfl rfl (by decide)

/-- C10: when the state file exists, is readable, and contains only whitespace,
`read_last_md5` returns the empty string (not `none`); the empty string differs
from every fingerprint (`md5_hex` always has length 32), so the run takes the
healthy-change branch — exit 0, state overwritten with the current fingerprint,
never bootstrap and never remediation. -/
theorem whitespace_state_run (env : Env) (r : CommandResult) (ws : String)
    (hs : env.status_out = .completes r)
    (hstate : env.state = .content ws)
    (hws : ∀ c ∈ ws.data, pyIsSpace c = true) :
    read_last_md5 env.state = some ""
    ∧ md5_hex r.stdout ≠ ""
    ∧ mainRun env = .ok
      { exitCode := 0,
        logs := [log_success_line env.ts (md5_hex r.stdout)],
        state := StateFile.content (md5_hex r.stdout ++ "\n"),
        commands := [status_cmd env], branch := .changed, emailResult := none } := by
  have hread : read_last_md5 env.state = some "" := by
    rw [hstate]
    show some (pyStrip ws) = some ""
    rw [pyStrip_all_space ws hws]
  exact ⟨hread, md5_hex_ne_empty r.stdout,
    mainRun_changed env r "" hs hread (md5_hex_ne_empty r.stdout)⟩

/-- C10 witness: a state file holding only `" \n"`. -/
theorem whitespace_state_run_witness :
    read_last_md5 ({ env0 with state := .content " \n" } : Env).state = some ""
    ∧ md5_hex "" ≠ ""
    ∧ mainRun { env0 with state := .content " \n" } = .ok
      { exitCode := 0,
        logs := [log_success_line env0.ts (md5_hex "")],
        state := StateFile.content (md5_hex "" ++ "\n"),
        commands := [status_cmd { env0 with state := .content " \n" }],
        branch := .changed, emailResult := none } :=
  whitespace_state_run { env0 with state := .content " \n" } res0 " \n" rfl rfl (by decide)

/-- C8: the fingerprint store round-trips: after `write_last_md5 fp` the state
file holds exactly `fp` followed by a trailing newline, and `read_last_md5`
strips it back to `fp` (for `fp` without surrounding whitespace, as every hex
fingerprint is). -/
theorem write_read_roundtrip (fp : String) (old : StateFile)
    (h : ∀ c ∈ fp.data, pyIsSpace c = false) :
    write_last_md5 fp old = .content (fp ++ "\n")
    ∧ read_last_md5 (write_last_md5 fp old) = some fp := by
  refine ⟨rfl, ?_⟩
  show some (pyStrip (fp ++ "\n")) = some fp
  congr 1
  unfold pyStrip
  have hdata : (fp ++ "\n").data = fp.data ++ ['\n'] := by
    rw [String.data_append]
  rw [hdata, pyStripList_append_newline fp.data h]

/-- C8 witness: round trip of a concrete hex fingerprint. -/
theorem write_read_roundtrip_witness :
    write_last_md5 md5Empty .absent = .content (md5Empty ++ "\n")
    ∧ read_last_md5 (write_last_md5 md5Empty .absent) = some md5Empty :=
  write_read_roundtrip md5Empty .absent (by decide)

/-- C9: each diagnostic-block section emits the command label and the return
code, a STDERR part exactly when the stripped stderr is non-blank, and always
a STDOUT part (even for blank stdout); the builder is a pure function of its
two arguments. -/
theorem add_command_output_shape (cmd : String) (result : CommandResult) :
    (pyStrip result.stderr ≠ "" →
      add_command_output cmd result =
        ["Command: " ++ cmd, "Return code: " ++ toString result.returncode,
         "STDERR:", rstripNl result.stderr, "STDOUT:", rstripNl result.stdout, ""])
    ∧ (pyStrip result.stderr = "" →
      add_command_output cmd result =
        ["Command: " ++ cmd, "Return code: " ++ toString result.returncode,
         "STDOUT:", rstripNl result.stdout, ""]) := by
  constructor
  · intro h
    unfold add_command_output
    rw [if_pos h]
    rfl
  · intro h
    unfold add_command_output
    rw [if_neg (by simp [h])]
    rfl

/-- C7: the fingerprint is deterministic (a pure function), always a 32
character digest over the lowercase hex alphabet, and the UTF-8 encoding step
it uses never fails: `errors="replace"` always yields bytes, replacing each
surrogate code point by `?` (63). -/
theorem md5_hex_total_deterministic (x : String) (cs : List Nat) :
    md5_hex x = md5_hex x
    ∧ (md5_hex x).length = 32
    ∧ (∀ c ∈ (md5_hex x).data, c ∈ ("0123456789abcdef").data)
    ∧ pyEncodeUtf8 EncodeErrors.replace cs = some (encodeReplace cs)
    ∧ (∀ n, isSurrogate n = true → encodeReplace [n] = [63]) := by
  refine ⟨rfl, md5_hex_length x, bytesToHex_chars _, rfl, ?_⟩
  intro n hn
  unfold encodeReplace
  simp [hn]

/-- C6: the identity check depends on the status query's stdout only: equal
stdout gives an identical fingerprint, and — stderr and return code
notwithstanding — an identical branch selection for the same persisted state. -/
theorem fingerprint_ignores_stderr_and_rc (env : Env) (r1 r2 : CommandResult)
    (h : r1.stdout = r2.stdout) :
    md5_hex r1.stdout = md5_hex r2.stdout
    ∧ (mainRun { env with status_out := .completes r1 }).map (fun res => res.branch)
      = (mainRun { env with status_out := .completes r2 }).map (fun res => res.branch) := by
  constructor
  · rw [h]
  · rw [mainRun_map_branch { env with status_out := .completes r1 } r1 rfl,
        mainRun_map_branch { env with status_out := .completes r2 } r2 rfl, h]
    exact rfl

/-- C6 witness: two status results with equal stdout but different stderr and
return codes. -/
theorem fingerprint_ignores_stderr_and_rc_witness :
    md5_hex (CommandResult.mk 0 "" "").stdout = md5_hex (CommandResult.mk 1 "" "warning").stdout
    ∧ (mainRun { env0 with status_out := .completes (CommandResult.mk 0 "" "") }).map
        (fun res => res.branch)
      = (mainRun { env0 with status_out := .completes (CommandResult.mk 1 "" "warning") }).map
        (fun res => res.branch) :=
  fingerprint_ignores_stderr_and_rc env0 (CommandResult.mk 0 "" "")
    (CommandResult.mk 1 "" "warning") rfl

/-- C2 (evidence for the code bug): `runCmd` has no try/except, so a command
that exceeds its timeout budget raises `subprocess.TimeoutExpired` instead of
returning a `CommandResult` with nonzero return code, and the exception
propagates out of `main` (the run reaches no terminal branch). -/
theorem runCmd_timeout_raises :
    runCmd CmdOutcome.timesOut = Except.error "subprocess.TimeoutExpired"
    ∧ mainRun { env0 with status_out := CmdOutcome.timesOut }
        = Except.error "subprocess.TimeoutExpired" :=
  ⟨rfl, rfl⟩

/-- C1: with a persisted fingerprint `last` equal to the current output's
fingerprint, one run of `main` issues exactly the three extra commands
(supervisor status, load-stats, restart), appends exactly one diagnostic block
(the email path may append non-block lines, and no other block appears),
re-persists `last` as the baseline, and exits with the restart command's
return code. -/
theorem stuck_remediation_run (env : Env) (r vs ls rs : CommandResult) (last : String)
    (hs : env.status_out = .completes r)
    (hv : env.svc_out = .completes vs)
    (hl : env.load_out = .completes ls)
    (hr : env.restart_out = .completes rs)
    (hread : read_last_md5 env.state = some last)
    (heq : md5_hex r.stdout = last) :
    mainRun env = .ok
      { exitCode := rs.returncode,
        logs := diagnostic_block env r vs ls rs last
          :: (send_email_alert env.emailCfg env.smtp (email_subject env)
               (email_body env rs (diagnostic_block env r vs ls rs last))
               env.emailCfg.email_to).2,
        state := StateFile.content (last ++ "\n"),
        commands := [status_cmd env, svc_status_cmd env, load_stats_cmd env,
                     restart_cmd env],
        branch := .stuck,
        emailResult := some (send_email_alert env.emailCfg env.smtp (email_subject env)
          (email_body env rs (diagnostic_block env r vs ls rs last))
          env.emailCfg.email_to).1 }
    ∧ (diagnostic_block env r vs ls rs last
        :: (send_email_alert env.emailCfg env.smtp (email_subject env)
             (email_body env rs (diagnostic_block env r vs ls rs last))
             env.emailCfg.email_to).2).countP isDiagLog = 1 := by
  constructor
  · have h0 := mainRun_stuck env r vs ls rs last hs hv hl hr hread heq
    rw [heq] at h0
    exact h0
  · rw [List.countP_cons, emailLogs_countP_diag, isDiagLog_diag_block]
    rfl

/-- C1 witness: the stuck path at a concrete input — the persisted baseline is
the MD5 of the (empty) current output, and every command completes with code 0. -/
theorem stuck_remediation_run_witness :
    mainRun envC1 = .ok
      { exitCode := res0.returncode,
        logs := diagnostic_block envC1 res0 res0 res0 res0 md5Empty
          :: (send_email_alert envC1.emailCfg envC1.smtp (email_subject envC1)
               (email_body envC1 res0 (diagnostic_block envC1 res0 res0 res0 res0 md5Empty))
               envC1.emailCfg.email_to).2,
        state := StateFile.content (md5Empty ++ "\n"),
        commands := [status_cmd envC1, svc_status_cmd envC1, load_stats_cmd envC1,
                     restart_cmd envC1],
        branch := .stuck,
        emailResult := some (send_email_alert envC1.emailCfg envC1.smtp (email_subject envC1)
          (email_body envC1 res0 (diagnostic_block envC1 res0 res0 res0 res0 md5Empty))
          envC1.emailCfg.email_to).1 }
    ∧ (diagnostic_block envC1 res0 res0 res0 res0 md5Empty
        :: (send_email_alert envC1.emailCfg envC1.smtp (email_subject envC1)
             (email_body envC1 res0 (diagnostic_block envC1 res0 res0 res0 res0 md5Empty))
             envC1.emailCfg.email_to).2).countP isDiagLog = 1 :=
  stuck_remediation_run envC1 res0 res0 res0 res0 md5Empty rfl rfl rfl rfl rfl (by decide)

/-- C3 counterexample: an authenticate-stage failure (`SMTPAuthenticationError`)
is caught, but `send_email_alert` then proceeds and — when the send succeeds —
returns `True`, not `False` as the claim states for every transport failure. -/
theorem send_auth_failure_returns_true :
    smtpAuthFail.loginExc = some (SmtpExc.authError "535 bad credentials")
    ∧ (send_email_alert cfgAuth smtpAuthFail "s" "b" cfgAuth.email_to).1 = true :=
  ⟨rfl, rfl⟩

/-- C3 (amended): a connect-stage or send-stage transport failure is caught
and turned into a `False` return; an authenticate-stage failure is caught too
but delivery proceeds best-effort (the call may return `True`); in every case
no exception propagates, and the transport's behavior can change neither
`main`'s exit code, nor the diagnostic block appended to the log, nor the
persisted baseline. -/
theorem alert_isolation (cfg : EmailCfg) (tc tse : SmtpTransport) (e1 e2 : SmtpExc)
    (subject body : String) (recipients : List String)
    (env : Env) (t1 t2 : SmtpTransport)
    (hc : tc.connectExc = some e1)
    (h1 : tse.connectExc = none) (h2 : tse.starttlsExc = none)
    (h3 : tse.loginExc = none) (h4 : tse.sendExc = some e2) :
    (send_email_alert cfg tc subject body recipients).1 = false
    ∧ (send_email_alert cfg tse subject body recipients).1 = false
    ∧ (mainRun { env with smtp := t1 }).map (fun res => res.exitCode)
      = (mainRun { env with smtp := t2 }).map (fun res => res.exitCode)
    ∧ (mainRun { env with smtp := t1 }).map (fun res => res.logs.filter isDiagLog)
      = (mainRun { env with smtp := t2 }).map (fun res => res.logs.filter isDiagLog)
    ∧ (mainRun { env with smtp := t1 }).map (fun res => res.state)
      = (mainRun { env with smtp := t2 }).map (fun res => res.state) :=
  ⟨send_false_of_connect cfg tc subject body recipients e1 hc,
   send_false_of_send cfg tse subject body recipients e2 h1 h2 h3 h4,
   (mainRun_smtp_invariant env t1 t2).1,
   (mainRun_smtp_invariant env t1 t2).2.1,
   (mainRun_smtp_invariant env t1 t2).2.2⟩

/-- C3 witness: concrete connect-failing and send-failing transports, and two
concrete transports (all-succeeding vs auth-failing) that leave `main`'s
observables unchanged. -/
theorem alert_isolation_witness :
    (send_email_alert cfgAuth smtpConnFail "s" "b" cfgAuth.email_to).1 = false
    ∧ (send_email_alert cfgAuth smtpSendFail "s" "b" cfgAuth.email_to).1 = false
    ∧ (mainRun { env0 with smtp := smtp0 }).map (fun res => res.exitCode)
      = (mainRun { env0 with smtp := smtpAuthFail }).map (fun res => res.exitCode)
    ∧ (mainRun { env0 with smtp := smtp0 }).map (fun res => res.logs.filter isDiagLog)
      = (mainRun { env0 with smtp := smtpAuthFail }).map
          (fun res => res.logs.filter isDiagLog)
    ∧ (mainRun { env0 with smtp := smtp0 }).map (fun res => res.state)
      = (mainRun { env0 with smtp := smtpAuthFail }).map (fun res => res.state) :=
  alert_isolation cfgAuth smtpConnFail smtpSendFail
    (SmtpExc.other "ConnectionRefusedError" "refused")
    (SmtpExc.other "SMTPException" "send failed")
    "s" "b" cfgAuth.email_to env0 smtp0 smtpAuthFail rfl rfl rfl rfl rfl

end OpenvpnMonitor
